import Mathlib

/-!
Verification development for the `mpsc` facade of a networked typed-channel
library (`src/mpsc/mod.rs`).  The facade wraps two substrate channels:
`channel::Channel` (one framed connection) feeding the `Sender`, and
`multi_channel::Channel` (a registry of framed connections) feeding the
`Receiver`.  The substrate modules are not part of the provided sources, so
they are modelled here from the design document (sections 4.2, 4.3 and 7);
every definition taken from the provided source names the line it embeds.
Async suspension is modelled by driving each operation to completion, with
`Option` marking operations that may suspend forever (`none` = would still
be pending), and scripted transport outcomes stored in the channel state so
that theorems quantify over every possible outcome.
-/

/-- Network socket addresses, abstracted as naturals. -/
abbrev Addr := Nat

/-- One self-delimited wire frame (`BytesMut`), abstracted as a list of bytes. -/
abbrev Frame := List Nat

/-- Modelled from the spec: the codec adapter boundary (`EncodeMethod` /
`DecodeMethod` of `util::codec`, section 4.1) — both directions are opaque
fallible functions; error payloads are abstracted as naturals. -/
structure Codec (T : Type) where
  encode : T → Except Nat Frame
  decode : Frame → Except Nat T

/-- Modelled from the spec: `channel::errors::ChannelSinkError`, the
write-path error taxonomy of section 7 — codec encode failure (value-scoped),
protocol misuse (`submit` without a prior `ready`), or a terminal transport
failure. -/
inductive ChannelSinkError where
  | itemEncode (e : Nat)
  | protocolMisuse
  | transport (e : Nat)
deriving Repr, DecidableEq

/-- Modelled from the spec: `multi_channel::errors::ChannelStreamError`, the
read-path error taxonomy of section 7 — per-item codec decode failure or a
transport failure. -/
inductive ChannelStreamError where
  | itemDecode (e : Nat)
  | transport (e : Nat)
deriving Repr, DecidableEq

/-- Modelled from the spec: `multi_channel::errors::AcceptingError` —
admission failure: capacity limit reached (`CapacityExceeded`, distinguished
so callers can branch on it) or another admission failure such as an
admission-filter rejection (section 7). -/
inductive AcceptingError where
  | capacityExceeded
  | filterRejected (e : Nat)
deriving Repr, DecidableEq

/-- Modelled from the spec: `channel::errors::SplitError` — attempted split
on a non-halvable or already-split transport (section 7). -/
inductive CSplitError where
  | notHalvable
deriving Repr, DecidableEq

/-- Modelled from the spec: `multi_channel::errors::SplitError`, the
multi-channel counterpart of the split failure, a structurally distinct
type. -/
inductive MSplitError where
  | notHalvable
deriving Repr, DecidableEq

/-- Modelled from the spec: `channel::Channel` (Framed Single Channel,
section 4.2).  We model its addresses, the three-phase write path
(ready, submit, flush), the close flag and splittability.  The outcomes of
the suspension points `poll_ready` / `poll_flush` are drawn from per-channel
scripts (`none` = transport succeeded, `some e` = transport error `e`; an
exhausted script means the transport keeps succeeding), so theorems range
over every possible transport behaviour. -/
structure SChannel (T : Type) where
  codec : Codec T
  localAddr : Addr
  peerAddr : Addr
  readyFlag : Bool
  queued : Option Frame
  wire : List Frame
  readyScript : List (Option Nat)
  flushScript : List (Option Nat)
  writeClosed : Bool
  splittable : Bool

/-- Modelled from the spec: `channel::Channel::poll_ready` (write-ready probe,
section 4.2) driven to completion — on success the channel may accept one
value; on transport error nothing is marked ready. -/
def SChannel.pollReady {T : Type} (s : SChannel T) :
    Except ChannelSinkError Unit × SChannel T :=
  match s.readyScript with
  | [] => (.ok (), { s with readyFlag := true })
  | none :: rest => (.ok (), { s with readyFlag := true, readyScript := rest })
  | some e :: rest => (.error (.transport e), { s with readyScript := rest })

/-- Modelled from the spec: `channel::Channel::start_send` (submit,
section 4.2) — encodes and queues exactly one value; fails with the encode
error (writing nothing) if encoding fails, and with a protocol-misuse error
if called without a preceding ready signal. -/
def SChannel.startSend {T : Type} (s : SChannel T) (item : T) :
    Except ChannelSinkError Unit × SChannel T :=
  if s.readyFlag then
    match s.codec.encode item with
    | .error e => (.error (.itemEncode e), s)
    | .ok f => (.ok (), { s with readyFlag := false, queued := some f })
  else
    (.error .protocolMisuse, s)

/-- Modelled from the spec: `channel::Channel::poll_flush` (section 4.2)
driven to completion — drives the queued frame onto the wire, or fails with
a transport error leaving the frame queued (a later flush resumes). -/
def SChannel.pollFlush {T : Type} (s : SChannel T) :
    Except ChannelSinkError Unit × SChannel T :=
  match s.flushScript with
  | some e :: rest => (.error (.transport e), { s with flushScript := rest })
  | none :: rest =>
      (.ok (), { s with queued := none, wire := s.wire ++ s.queued.toList,
                        flushScript := rest })
  | [] =>
      (.ok (), { s with queued := none, wire := s.wire ++ s.queued.toList })

/-- Modelled from the spec: `channel::Channel::poll_close` (section 4.2)
driven to completion — flushes remaining data then shuts the write side
down. -/
def SChannel.pollClose {T : Type} (s : SChannel T) :
    Except ChannelSinkError Unit × SChannel T :=
  match s.pollFlush with
  | (.ok _, s1) => (.ok (), { s1 with writeClosed := true })
  | (.error e, s1) => (.error e, s1)

/-- Modelled from the spec: `spsc::Receiver`, the read half produced by a
single-channel split — a newtype over `channel::Channel`. -/
structure SpscReceiver (T : Type) where
  ch : SChannel T

/-- Modelled from the spec: `spsc::Sender`, the write half produced by a
single-channel split — a newtype over `channel::Channel` (field `.0` is read
by the facade's `From` impl). -/
structure SpscSender (T : Type) where
  ch : SChannel T

/-- Modelled from the spec: `channel::Channel::split` (section 4.2) —
consumes the channel and transfers disjoint ownership of the read and write
capabilities to two new halves; fails only if the underlying transport does
not support halving; the produced halves are themselves no longer
halvable. -/
def SChannel.split {T : Type} (s : SChannel T) :
    Except CSplitError (SpscReceiver T × SpscSender T) :=
  if s.splittable then
    .ok (⟨{ s with splittable := false }⟩, ⟨{ s with splittable := false }⟩)
  else
    .error .notHalvable

/-- `mpsc::Sender` (src/mpsc/mod.rs line 67): a newtype over
`channel::Channel`. -/
structure Sender (T : Type) where
  ch : SChannel T

/-- `mpsc::errors::SenderError` (src/mpsc/mod.rs lines 272-283): wraps the
substrate `channel::errors::ChannelSinkError` as its `source` field (the
snafu backtrace is omitted from the model). -/
structure SenderError where
  source : ChannelSinkError
deriving Repr, DecidableEq

/-- `Sender::local_addr` (src/mpsc/mod.rs line 73): forwards to the inner
channel, borrowing the handle. -/
def Sender.localAddr {T : Type} (s : Sender T) : Addr :=
  s.ch.localAddr

/-- `Sender::peer_addr` (src/mpsc/mod.rs line 77): forwards to the inner
channel, borrowing the handle. -/
def Sender.peerAddr {T : Type} (s : Sender T) : Addr :=
  s.ch.peerAddr

/-- `From<spsc::Sender> for mpsc::Sender` (src/mpsc/mod.rs line 82): rewraps
the inner channel. -/
def Sender.fromSpsc {T : Type} (w : SpscSender T) : Sender T :=
  ⟨w.ch⟩

/-- `Sender::split` (src/mpsc/mod.rs lines 92-99): splits the inner channel
with `?` (propagating the substrate `SplitError` unwrapped) and returns the
write half converted into a new `mpsc::Sender` paired with the read half as
an `spsc::Receiver`. -/
def Sender.split {T : Type} (s : Sender T) :
    Except CSplitError (Sender T × SpscReceiver T) :=
  match s.ch.split with
  | .ok (r, w) => .ok (Sender.fromSpsc w, r)
  | .error e => .error e

/-- `Sink::poll_ready` for `Sender` (src/mpsc/mod.rs lines 124-133): forwards
to the substrate and wraps any error in `SenderError`. -/
def Sender.pollReady {T : Type} (s : Sender T) :
    Except SenderError Unit × Sender T :=
  match s.ch.pollReady with
  | (.ok _, ch) => (.ok (), ⟨ch⟩)
  | (.error e, ch) => (.error ⟨e⟩, ⟨ch⟩)

/-- `Sink::start_send` for `Sender` (src/mpsc/mod.rs lines 120-122): forwards
to the substrate and wraps any error in `SenderError`. -/
def Sender.startSend {T : Type} (s : Sender T) (item : T) :
    Except SenderError Unit × Sender T :=
  match s.ch.startSend item with
  | (.ok _, ch) => (.ok (), ⟨ch⟩)
  | (.error e, ch) => (.error ⟨e⟩, ⟨ch⟩)

/-- `Sink::poll_flush` for `Sender` (src/mpsc/mod.rs lines 135-144): forwards
to the substrate and wraps any error in `SenderError`. -/
def Sender.pollFlush {T : Type} (s : Sender T) :
    Except SenderError Unit × Sender T :=
  match s.ch.pollFlush with
  | (.ok _, ch) => (.ok (), ⟨ch⟩)
  | (.error e, ch) => (.error ⟨e⟩, ⟨ch⟩)

/-- `Sink::poll_close` for `Sender` (src/mpsc/mod.rs lines 146-155): forwards
to the substrate and wraps any error in `SenderError`. -/
def Sender.pollClose {T : Type} (s : Sender T) :
    Except SenderError Unit × Sender T :=
  match s.ch.pollClose with
  | (.ok _, ch) => (.ok (), ⟨ch⟩)
  | (.error e, ch) => (.error ⟨e⟩, ⟨ch⟩)

/-- `Sender::send` (src/mpsc/mod.rs lines 107-109) delegates to the futures
crate's `SinkExt::send`; modelled from that combinator's documented
behaviour: drive `poll_ready` to completion, then `start_send`, then
`poll_flush` to completion, stopping at the first phase that fails. -/
def Sender.send {T : Type} (s : Sender T) (item : T) :
    Except SenderError Unit × Sender T :=
  match s.pollReady with
  | (.error e, s1) => (.error e, s1)
  | (.ok _, s1) =>
    match s1.startSend item with
    | (.error e, s2) => (.error e, s2)
    | (.ok _, s2) =>
      match s2.pollFlush with
      | (.error e, s3) => (.error e, s3)
      | (.ok _, s3) => (.ok (), s3)

/-- One event arriving on the unified fan-in source of a Multi-Channel:
either a complete raw frame from an identified peer, or a terminal event
(transport error or clean close) for a peer.  The linearisation of the
per-peer arrivals into one list models the fan-in already multiplexed
(section 4.3 fixes no cross-peer order, only fairness). -/
inductive MEvent where
  | frame (f : Frame) (addr : Addr)
  | term (addr : Addr)
deriving Repr, DecidableEq

/-- Test for a terminal event. -/
def MEvent.isTerm : MEvent → Bool
  | .term _ => true
  | .frame _ _ => false

/-- Modelled from the spec: `multi_channel::Channel` (Multiplexing
Multi-Channel, sections 4.3 and 3).  State: the registry of live peer
addresses, the configured capacity (the const generic `N`, where zero
denotes unbounded), the linearised pending arrivals of the unified source,
the queue of incoming connections not yet admitted (scripted, possibly
already failed by the admission filter), whether this handle holds the
active accept pathway, and splittability. -/
structure MChannel (T : Type) where
  codec : Codec T
  localAddr : Addr
  limitN : Nat
  peers : List Addr
  events : List MEvent
  pending : List (Except AcceptingError Addr)
  listening : Bool
  splittable : Bool

/-- Modelled from the spec: `multi_channel::Channel::len` — count of live
peers (section 4.3). -/
def MChannel.len {T : Type} (s : MChannel T) : Nat :=
  s.peers.length

/-- Modelled from the spec: `multi_channel::Channel::limit` — the configured
capacity as an optional value (section 4.3; `N = 0` denotes unbounded and
reports no limit). -/
def MChannel.limit {T : Type} (s : MChannel T) : Option Nat :=
  if s.limitN = 0 then none else some s.limitN

/-- Modelled from the spec: `multi_channel::Channel::peer_addrs` — snapshot
list of currently live peer addresses (section 4.3). -/
def MChannel.peerAddrs {T : Type} (s : MChannel T) : List Addr :=
  s.peers

/-- Modelled from the spec: `multi_channel::Channel::accept` (section 4.3)
driven to completion; `none` models suspension (no incoming connection yet,
or the accept pathway was surrendered to the other split half).  An incoming
connection already failed by the admission filter surfaces that failure; an
admissible connection fails with `CapacityExceeded` while the registry holds
`N` live peers — the connection stays pending so a later attempt can succeed
once a peer disconnects (section 8, scenario B) — and is otherwise inserted
keyed by its peer address. -/
def MChannel.accept {T : Type} (s : MChannel T) :
    Option (Except AcceptingError Addr) × MChannel T :=
  if s.listening then
    match s.pending with
    | [] => (none, s)
    | .error e :: rest => (some (.error e), { s with pending := rest })
    | .ok a :: rest =>
      if s.limitN ≠ 0 ∧ s.limitN ≤ s.peers.length then
        (some (.error .capacityExceeded), s)
      else
        (some (.ok a), { s with peers := s.peers ++ [a], pending := rest })
  else
    (none, s)

/-- Modelled from the spec: one completed poll of the Multi-Channel's unified
source (section 4.3 `next`), before decoding — terminal events evict their
peer from the registry and are not surfaced; the first pending frame is
surfaced together with its origin address; `none` when no frame remains
(`end`). -/
def drainStep (peers : List Addr) :
    List MEvent → Option (Frame × Addr) × List Addr × List MEvent
  | [] => (none, peers, [])
  | .term a :: rest => drainStep (peers.erase a) rest
  | .frame f a :: rest => (some (f, a), peers, rest)

/-- Modelled from the spec: `multi_channel::Channel::recv_with_addr` — the
typed unified source paired with the origin address: decodes the next
surfaced frame, reporting a decode failure per item without terminating the
source. -/
def MChannel.recvWithAddr {T : Type} (s : MChannel T) :
    Option (Except ChannelStreamError T × Addr) × MChannel T :=
  match drainStep s.peers s.events with
  | (none, ps, evs) => (none, { s with peers := ps, events := evs })
  | (some (f, a), ps, evs) =>
    match s.codec.decode f with
    | .ok v => (some (.ok v, a), { s with peers := ps, events := evs })
    | .error e =>
        (some (.error (.itemDecode e), a), { s with peers := ps, events := evs })

/-- Modelled from the spec: the substrate `Stream` view of
`multi_channel::Channel` (its `poll_next`, what `StreamExt::next` drives) —
the typed unified source with the origin address dropped. -/
def MChannel.next {T : Type} (s : MChannel T) :
    Option (Except ChannelStreamError T) × MChannel T :=
  match s.recvWithAddr with
  | (none, s1) => (none, s1)
  | (some (r, _), s1) => (some r, s1)

/-- Modelled from the spec: `multi_channel::Channel::recv_frame_with_addr` —
raw-frame access with the origin address: the same suspension and
termination behaviour as the typed source, yielding the undecoded frame
(the framing boundary is owned by the core, independent of the codec,
section 4.1). -/
def MChannel.recvFrameWithAddr {T : Type} (s : MChannel T) :
    Option (Except ChannelStreamError Frame × Addr) × MChannel T :=
  match drainStep s.peers s.events with
  | (none, ps, evs) => (none, { s with peers := ps, events := evs })
  | (some (f, a), ps, evs) => (some (.ok f, a), { s with peers := ps, events := evs })

/-- Modelled from the spec: `multi_channel::Channel::recv_frame` — raw-frame
access with the origin address dropped. -/
def MChannel.recvFrame {T : Type} (s : MChannel T) :
    Option (Except ChannelStreamError Frame) × MChannel T :=
  match s.recvFrameWithAddr with
  | (none, s1) => (none, s1)
  | (some (r, _), s1) => (some r, s1)

/-- `mpsc::Receiver` (src/mpsc/mod.rs line 160): a newtype over
`multi_channel::Channel`. -/
structure Receiver (T : Type) where
  ch : MChannel T

/-- Modelled from the spec: `broadcast::Sender`, the write-only fan-out half
produced by a multi-channel split — it holds the registry's write capability
and, depending on the split flag, possibly the accept pathway. -/
structure BroadcastSender (T : Type) where
  ch : MChannel T

/-- Modelled from the spec: `multi_channel::Channel::split(readhalf_is_listener)`
(section 4.3) — partitions the registry's read capability from its write
capability, returning the halves already facade-typed (matching the shape
used at src/mpsc/mod.rs line 194); the flag decides whether the receive half
remains the active listener for new admissions; fails only on a non-halvable
or already-split transport. -/
def MChannel.msplit {T : Type} (s : MChannel T) (readhalfIsListener : Bool) :
    Except MSplitError (Receiver T × BroadcastSender T) :=
  if s.splittable then
    .ok (⟨{ s with listening := readhalfIsListener, splittable := false }⟩,
         ⟨{ s with listening := !readhalfIsListener, splittable := false }⟩)
  else
    .error .notHalvable

/-- `mpsc::errors::ReceiverAcceptingError` (src/mpsc/mod.rs lines 264-270):
wraps the substrate `multi_channel::errors::AcceptingError` as its `source`
field. -/
structure ReceiverAcceptingError where
  source : AcceptingError
deriving Repr, DecidableEq

/-- `mpsc::errors::ReceiverError` (src/mpsc/mod.rs lines 285-296): wraps the
substrate `multi_channel::errors::ChannelStreamError` as its `source`
field. -/
structure ReceiverError where
  source : ChannelStreamError
deriving Repr, DecidableEq

/-- `Receiver::len` (src/mpsc/mod.rs line 169): forwards to the substrate,
borrowing the handle. -/
def Receiver.len {T : Type} (r : Receiver T) : Nat :=
  r.ch.len

/-- `Receiver::limit` (src/mpsc/mod.rs line 173): forwards to the substrate,
borrowing the handle. -/
def Receiver.limit {T : Type} (r : Receiver T) : Option Nat :=
  r.ch.limit

/-- `Receiver::local_addr` (src/mpsc/mod.rs line 177): forwards to the
substrate, borrowing the handle. -/
def Receiver.localAddr {T : Type} (r : Receiver T) : Addr :=
  r.ch.localAddr

/-- `Receiver::peer_addrs` (src/mpsc/mod.rs line 181): forwards to the
substrate, borrowing the handle. -/
def Receiver.peerAddrs {T : Type} (r : Receiver T) : List Addr :=
  r.ch.peerAddrs

/-- `Receiver::split` (src/mpsc/mod.rs lines 187-196): fixes
`readhalf_is_listener = true` and forwards to the substrate split,
propagating its `SplitError` unwrapped. -/
def Receiver.split {T : Type} (r : Receiver T) :
    Except MSplitError (Receiver T × BroadcastSender T) :=
  r.ch.msplit true

/-- `Receiver::accept` (src/mpsc/mod.rs lines 199-201): forwards to the
substrate accept and wraps any error in `ReceiverAcceptingError`. -/
def Receiver.accept {T : Type} (r : Receiver T) :
    Option (Except ReceiverAcceptingError Addr) × Receiver T :=
  match r.ch.accept with
  | (o, ch) => (o.map (fun res => res.mapError ReceiverAcceptingError.mk), ⟨ch⟩)

/-- `Receiver::recv` (src/mpsc/mod.rs lines 211-213): drives the substrate
stream one item and wraps any per-item error in `ReceiverError`. -/
def Receiver.recv {T : Type} (r : Receiver T) :
    Option (Except ReceiverError T) × Receiver T :=
  match r.ch.next with
  | (o, ch) => (o.map (fun res => res.mapError ReceiverError.mk), ⟨ch⟩)

/-- `Receiver::recv_with_addr` (src/mpsc/mod.rs lines 215-220): forwards to
the substrate addressed receive and wraps any per-item error in
`ReceiverError`, keeping the address. -/
def Receiver.recvWithAddr {T : Type} (r : Receiver T) :
    Option (Except ReceiverError T × Addr) × Receiver T :=
  match r.ch.recvWithAddr with
  | (o, ch) => (o.map (fun p => (p.1.mapError ReceiverError.mk, p.2)), ⟨ch⟩)

/-- `Receiver::recv_frame` (src/mpsc/mod.rs lines 222-227): forwards to the
substrate raw-frame receive and wraps any per-item error in
`ReceiverError`. -/
def Receiver.recvFrame {T : Type} (r : Receiver T) :
    Option (Except ReceiverError Frame) × Receiver T :=
  match r.ch.recvFrame with
  | (o, ch) => (o.map (fun res => res.mapError ReceiverError.mk), ⟨ch⟩)

/-- `Receiver::recv_frame_with_addr` (src/mpsc/mod.rs lines 229-236):
forwards to the substrate addressed raw-frame receive and wraps any per-item
error in `ReceiverError`, keeping the address. -/
def Receiver.recvFrameWithAddr {T : Type} (r : Receiver T) :
    Option (Except ReceiverError Frame × Addr) × Receiver T :=
  match r.ch.recvFrameWithAddr with
  | (o, ch) => (o.map (fun p => (p.1.mapError ReceiverError.mk, p.2)), ⟨ch⟩)

/-- `Stream::poll_next` for `Receiver` (src/mpsc/mod.rs lines 248-257):
matches the substrate item, forwarding values and wrapping the error case in
`ReceiverError`. -/
def Receiver.pollNext {T : Type} (r : Receiver T) :
    Option (Except ReceiverError T) × Receiver T :=
  match r.ch.next with
  | (some (.ok item), ch) => (some (.ok item), ⟨ch⟩)
  | (some (.error e), ch) => (some (.error ⟨e⟩), ⟨ch⟩)
  | (none, ch) => (none, ⟨ch⟩)

/-- C1: `Sender::send` drives the full three-phase write protocol to
completion — `poll_ready`, then `start_send`, then `poll_flush` on the
underlying single channel — and returns `Ok(())` exactly when every phase
succeeds; the first failing phase's substrate error comes back wrapped in
`SenderError` and no later phase is run (the resulting state is the state
left by the failing phase). -/
theorem sender_send_three_phase {T : Type} (s : Sender T) (item : T) :
    s.send item =
      (match s.ch.pollReady with
       | (.error e, ch1) => (.error ⟨e⟩, ⟨ch1⟩)
       | (.ok _, ch1) =>
         match ch1.startSend item with
         | (.error e, ch2) => (.error ⟨e⟩, ⟨ch2⟩)
         | (.ok _, ch2) =>
           match ch2.pollFlush with
           | (.error e, ch3) => (.error ⟨e⟩, ⟨ch3⟩)
           | (.ok _, ch3) => (.ok (), ⟨ch3⟩)) ∧
    ((s.send item).1 = .ok () ↔
      (s.ch.pollReady).1 = .ok () ∧
      ((s.ch.pollReady).2.startSend item).1 = .ok () ∧
      (((s.ch.pollReady).2.startSend item).2.pollFlush).1 = .ok ()) := by
  simp only [Sender.send, Sender.pollReady, Sender.startSend, Sender.pollFlush]
  rcases h1 : s.ch.pollReady with ⟨r1, ch1⟩
  cases r1 with
  | error e => simp
  | ok u =>
    cases u
    rcases h2 : ch1.startSend item with ⟨r2, ch2⟩
    cases r2 with
    | error e => simp [h2]
    | ok u =>
      cases u
      rcases h3 : ch2.pollFlush with ⟨r3, ch3⟩
      cases r3 with
      | error e => simp [h2, h3]
      | ok u => cases u; simp [h2, h3]

/-- C2: the lazy-sequence view and the async receive agree — from every
receiver state, the `Stream` implementation's `poll_next` yields exactly the
item (`Some(Ok(v))`, `Some(Err(e))` or `None`) that `recv` yields, with the
same successor state, so the two interfaces are observationally equivalent
item for item. -/
theorem receiver_stream_recv_equiv {T : Type} (r : Receiver T) :
    r.pollNext = r.recv := by
  simp only [Receiver.pollNext, Receiver.recv]
  rcases h : r.ch.next with ⟨o, ch⟩
  match o with
  | none => simp
  | some (.ok v) => simp [Except.mapError]
  | some (.error e) => simp [Except.mapError]

/-- C8: the addressed receive variants pair exactly the item the plain
variants would yield from the same state (same successor state) with the
origin address of the surfaced frame: `recv_with_addr` pairs `recv`'s
decoded value or per-item decode error with that address, and
`recv_frame_with_addr` pairs the raw undecoded frame yielded by `recv_frame`
with that address. -/
theorem receiver_addressed_variants {T : Type} (r : Receiver T) :
    ((r.recvWithAddr).1).map Prod.fst = (r.recv).1 ∧
    (r.recvWithAddr).2 = (r.recv).2 ∧
    ((r.recvFrameWithAddr).1).map Prod.fst = (r.recvFrame).1 ∧
    (r.recvFrameWithAddr).2 = (r.recvFrame).2 ∧
    ((r.recvWithAddr).1).map Prod.snd
      = ((drainStep r.ch.peers r.ch.events).1).map Prod.snd ∧
    ((r.recvFrameWithAddr).1).map Prod.snd
      = ((drainStep r.ch.peers r.ch.events).1).map Prod.snd ∧
    ((r.recvFrameWithAddr).1).map Prod.fst
      = ((drainStep r.ch.peers r.ch.events).1).map (fun q => Except.ok q.1) := by
  simp only [Receiver.recvWithAddr, Receiver.recv, Receiver.recvFrame,
    Receiver.recvFrameWithAddr, MChannel.next, MChannel.recvWithAddr,
    MChannel.recvFrame, MChannel.recvFrameWithAddr]
  rcases h : drainStep r.ch.peers r.ch.events with ⟨o, ps, evs⟩
  match o with
  | none => simp
  | some (f, a) =>
    match hd : r.ch.codec.decode f with
    | .ok v => simp [hd, Except.mapError]
    | .error e => simp [hd, Except.mapError]

/-- C3: every error a facade operation returns is the facade-typed wrapper
carrying the substrate error as its `source`, and a facade operation returns
an error exactly when the substrate operation does: each sink phase of
`Sender` wraps `channel::errors::ChannelSinkError` in `SenderError`, the
receive variants wrap `multi_channel::errors::ChannelStreamError` in
`ReceiverError`, `accept` wraps `multi_channel::errors::AcceptingError` in
`ReceiverAcceptingError`, and in every case values, suspension and the
successor state pass through untouched — no error is swallowed or
invented. -/
theorem mpsc_facade_error_wrapping {T : Type} (s : Sender T) (item : T)
    (r : Receiver T) :
    ((s.pollReady).1 = ((s.ch.pollReady).1).mapError SenderError.mk
      ∧ (s.pollReady).2.ch = (s.ch.pollReady).2) ∧
    ((s.startSend item).1 = ((s.ch.startSend item).1).mapError SenderError.mk
      ∧ (s.startSend item).2.ch = (s.ch.startSend item).2) ∧
    ((s.pollFlush).1 = ((s.ch.pollFlush).1).mapError SenderError.mk
      ∧ (s.pollFlush).2.ch = (s.ch.pollFlush).2) ∧
    ((s.pollClose).1 = ((s.ch.pollClose).1).mapError SenderError.mk
      ∧ (s.pollClose).2.ch = (s.ch.pollClose).2) ∧
    ((r.accept).1 = ((r.ch.accept).1).map (Except.mapError ReceiverAcceptingError.mk)
      ∧ (r.accept).2.ch = (r.ch.accept).2) ∧
    ((r.recv).1 = ((r.ch.next).1).map (Except.mapError ReceiverError.mk)
      ∧ (r.recv).2.ch = (r.ch.next).2) ∧
    ((r.recvWithAddr).1
        = ((r.ch.recvWithAddr).1).map (fun p => (p.1.mapError ReceiverError.mk, p.2))
      ∧ (r.recvWithAddr).2.ch = (r.ch.recvWithAddr).2) ∧
    ((r.recvFrame).1 = ((r.ch.recvFrame).1).map (Except.mapError ReceiverError.mk)
      ∧ (r.recvFrame).2.ch = (r.ch.recvFrame).2) ∧
    ((r.recvFrameWithAddr).1
        = ((r.ch.recvFrameWithAddr).1).map (fun p => (p.1.mapError ReceiverError.mk, p.2))
      ∧ (r.recvFrameWithAddr).2.ch = (r.ch.recvFrameWithAddr).2) ∧
    (∀ e, (s.pollReady).1 = .error e ↔ (s.ch.pollReady).1 = .error e.source) ∧
    (∀ e, (r.accept).1 = some (.error e)
      ↔ (r.ch.accept).1 = some (.error e.source)) ∧
    (∀ e, (r.recv).1 = some (.error e) ↔ (r.ch.next).1 = some (.error e.source)) := by
  have hpr : (s.pollReady).1 = ((s.ch.pollReady).1).mapError SenderError.mk
      ∧ (s.pollReady).2.ch = (s.ch.pollReady).2 := by
    simp only [Sender.pollReady]
    rcases h : s.ch.pollReady with ⟨res, ch⟩
    cases res with
    | ok u => cases u; exact ⟨rfl, rfl⟩
    | error e => exact ⟨rfl, rfl⟩
  have hss : (s.startSend item).1 = ((s.ch.startSend item).1).mapError SenderError.mk
      ∧ (s.startSend item).2.ch = (s.ch.startSend item).2 := by
    simp only [Sender.startSend]
    rcases h : s.ch.startSend item with ⟨res, ch⟩
    cases res with
    | ok u => cases u; exact ⟨rfl, rfl⟩
    | error e => exact ⟨rfl, rfl⟩
  have hpf : (s.pollFlush).1 = ((s.ch.pollFlush).1).mapError SenderError.mk
      ∧ (s.pollFlush).2.ch = (s.ch.pollFlush).2 := by
    simp only [Sender.pollFlush]
    rcases h : s.ch.pollFlush with ⟨res, ch⟩
    cases res with
    | ok u => cases u; exact ⟨rfl, rfl⟩
    | error e => exact ⟨rfl, rfl⟩
  have hpc : (s.pollClose).1 = ((s.ch.pollClose).1).mapError SenderError.mk
      ∧ (s.pollClose).2.ch = (s.ch.pollClose).2 := by
    simp only [Sender.pollClose]
    rcases h : s.ch.pollClose with ⟨res, ch⟩
    cases res with
    | ok u => cases u; exact ⟨rfl, rfl⟩
    | error e => exact ⟨rfl, rfl⟩
  refine ⟨hpr, hss, hpf, hpc, ⟨rfl, rfl⟩, ⟨rfl, rfl⟩, ⟨rfl, rfl⟩, ⟨rfl, rfl⟩,
    ⟨rfl, rfl⟩, ?_, ?_, ?_⟩
  · intro e
    cases e with
    | mk es =>
      rw [hpr.1]
      rcases (s.ch.pollReady).1 with e0 | u
      · simp [Except.mapError, SenderError.mk.injEq]
      · simp [Except.mapError]
  · intro e
    cases e with
    | mk es =>
      have haccept : (r.accept).1
          = ((r.ch.accept).1).map (Except.mapError ReceiverAcceptingError.mk) := rfl
      rw [haccept]
      rcases (r.ch.accept).1 with _ | res
      · simp
      · rcases res with e0 | a
        · simp [Except.mapError, ReceiverAcceptingError.mk.injEq]
        · simp [Except.mapError]
  · intro e
    cases e with
    | mk es =>
      have hrecv : (r.recv).1
          = ((r.ch.next).1).map (Except.mapError ReceiverError.mk) := rfl
      rw [hrecv]
      rcases (r.ch.next).1 with _ | res
      · simp
      · rcases res with e0 | v
        · simp [Except.mapError, ReceiverError.mk.injEq]
        · simp [Except.mapError]

/-- C4: split on both facades forwards to the substrate split and only to
it: `Sender::split` turns a substrate `Ok` into the write half rewrapped as
a new `mpsc::Sender` paired with the read half as an `spsc::Receiver`,
`Receiver::split` returns the substrate's continuing receiver and broadcast
sender, and each fails with exactly the substrate `SplitError`, which
happens precisely when the underlying transport is not halvable — there is
no other failure mode. -/
theorem mpsc_split_forwarding {T : Type} (s : Sender T) (r : Receiver T) :
    s.split = (match s.ch.split with
               | .ok (rd, wr) => .ok (Sender.fromSpsc wr, rd)
               | .error e => .error e) ∧
    (∀ e, s.split = .error e ↔ s.ch.split = .error e) ∧
    r.split = r.ch.msplit true ∧
    (∀ e, r.split = .error e ↔ r.ch.msplit true = .error e) ∧
    (s.split = .error .notHalvable ↔ s.ch.splittable = false) ∧
    (r.split = .error .notHalvable ↔ r.ch.splittable = false) := by
  refine ⟨rfl, ?_, rfl, fun e => Iff.rfl, ?_, ?_⟩
  · intro e
    simp only [Sender.split]
    rcases s.ch.split with ⟨rd, wr⟩ | e0 <;> simp
  · simp only [Sender.split, SChannel.split]
    rcases hsp : s.ch.splittable with _ | _ <;> simp [hsp]
  · simp only [Receiver.split, MChannel.msplit]
    rcases hsp : r.ch.splittable with _ | _ <;> simp [hsp]

/-- C9: `Receiver::split` hard-wires `readhalf_is_listener = true`: it always
invokes the substrate split with the local-is-authority flag set, so the
returned receive half retains the active accept pathway (its `listening`
state is on) while the broadcast half is never the active listener (its
`listening` state is off); no other mode is reachable through this
facade. -/
theorem receiver_split_listener_hardwired {T : Type} (r : Receiver T) :
    r.split = r.ch.msplit true ∧
    (∀ rv bs, r.split = .ok (rv, bs) →
      rv.ch.listening = true ∧ bs.ch.listening = false ∧
      rv.ch = { r.ch with listening := true, splittable := false } ∧
      bs.ch = { r.ch with listening := false, splittable := false }) := by
  refine ⟨rfl, ?_⟩
  intro rv bs h
  simp only [Receiver.split, MChannel.msplit] at h
  split at h
  · simp only [Except.ok.injEq, Prod.mk.injEq] at h
    obtain ⟨hrv, hbs⟩ := h
    subst hrv
    subst hbs
    exact ⟨rfl, rfl, rfl, rfl⟩
  · exact Except.noConfusion h

/-- Shared-reference inspection methods in state-passing form: a `&self`
method hands the borrowed handle back unchanged together with its value;
these wrappers make that frame condition a provable statement about the
embedded operations. -/
def Sender.localAddrOp {T : Type} (s : Sender T) : Addr × Sender T :=
  (s.localAddr, s)

/-- State-passing form of `Sender::peer_addr`. -/
def Sender.peerAddrOp {T : Type} (s : Sender T) : Addr × Sender T :=
  (s.peerAddr, s)

/-- State-passing form of `Receiver::len`. -/
def Receiver.lenOp {T : Type} (r : Receiver T) : Nat × Receiver T :=
  (r.len, r)

/-- State-passing form of `Receiver::limit`. -/
def Receiver.limitOp {T : Type} (r : Receiver T) : Option Nat × Receiver T :=
  (r.limit, r)

/-- State-passing form of `Receiver::local_addr`. -/
def Receiver.localAddrOp {T : Type} (r : Receiver T) : Addr × Receiver T :=
  (r.localAddr, r)

/-- State-passing form of `Receiver::peer_addrs`. -/
def Receiver.peerAddrsOp {T : Type} (r : Receiver T) : List Addr × Receiver T :=
  (r.peerAddrs, r)

/-- C10: every inspection operation on the facades borrows the handle and
leaves the channel state entirely unchanged, so two consecutive calls to the
same inspection with no intervening operation return equal values; each one
merely reads the substrate state (peer count, configured capacity as an
optional value, addresses). -/
theorem mpsc_inspection_frame {T : Type} (s : Sender T) (r : Receiver T) :
    (s.localAddrOp).2 = s ∧ (s.peerAddrOp).2 = s ∧
    (r.lenOp).2 = r ∧ (r.limitOp).2 = r ∧
    (r.localAddrOp).2 = r ∧ (r.peerAddrsOp).2 = r ∧
    (((s.localAddrOp).2).localAddrOp).1 = (s.localAddrOp).1 ∧
    (((s.peerAddrOp).2).peerAddrOp).1 = (s.peerAddrOp).1 ∧
    (((r.lenOp).2).lenOp).1 = (r.lenOp).1 ∧
    (((r.limitOp).2).limitOp).1 = (r.limitOp).1 ∧
    (((r.localAddrOp).2).localAddrOp).1 = (r.localAddrOp).1 ∧
    (((r.peerAddrsOp).2).peerAddrsOp).1 = (r.peerAddrsOp).1 ∧
    s.localAddr = s.ch.localAddr ∧ s.peerAddr = s.ch.peerAddr ∧
    r.len = r.ch.peers.length ∧
    r.limit = (if r.ch.limitN = 0 then none else some r.ch.limitN) ∧
    r.localAddr = r.ch.localAddr ∧ r.peerAddrs = r.ch.peers :=
  ⟨rfl, rfl, rfl, rfl, rfl, rfl, rfl, rfl, rfl, rfl, rfl, rfl, rfl, rfl, rfl,
   rfl, rfl, rfl⟩

/-- The unified source surfaces no item exactly when only terminal events
remain in the linearised arrivals, whatever the registry holds. -/
theorem drainStep_none_iff (ps : List Addr) (evs : List MEvent) :
    (drainStep ps evs).1 = none ↔ evs.all MEvent.isTerm = true := by
  induction evs generalizing ps with
  | nil => simp [drainStep]
  | cons ev rest ih =>
    cases ev with
    | term a => simpa [drainStep, MEvent.isTerm] using ih (ps.erase a)
    | frame f a => simp [drainStep, MEvent.isTerm]

/-- C7: per-item decode errors do not terminate the receive stream — when
the next arrival is a frame that fails to decode, `recv` yields
`Some(Err(decode error))` and leaves the rest of the arrivals (and the
registry) intact for subsequent calls; a peer's terminal error or clean
close only evicts that peer's entry, `recv` behaving exactly as it does on
the already-evicted state (the eviction is never surfaced as a stream
item); and `recv` returns `None` exactly when nothing but terminal events
remains, i.e. when the channel ends. -/
theorem receiver_error_isolation {T : Type} (r : Receiver T) :
    (∀ b rest, r.ch.events = MEvent.term b :: rest →
      r.recv
        = Receiver.recv ⟨{ r.ch with peers := r.ch.peers.erase b, events := rest }⟩) ∧
    (∀ f b rest e, r.ch.events = MEvent.frame f b :: rest →
      r.ch.codec.decode f = .error e →
      (r.recv).1 = some (.error ⟨.itemDecode e⟩) ∧
      (r.recv).2 = ⟨{ r.ch with events := rest }⟩) ∧
    ((r.recv).1 = none ↔ r.ch.events.all MEvent.isTerm = true) := by
  refine ⟨?_, ?_, ?_⟩
  · intro b rest hev
    simp only [Receiver.recv, MChannel.next, MChannel.recvWithAddr, hev,
      drainStep]
  · intro f b rest e hev hdec
    simp only [Receiver.recv, MChannel.next, MChannel.recvWithAddr, hev,
      drainStep, hdec]
    exact ⟨rfl, trivial⟩
  · have hiff := drainStep_none_iff r.ch.peers r.ch.events
    simp only [Receiver.recv, MChannel.next, MChannel.recvWithAddr]
    rcases h : drainStep r.ch.peers r.ch.events with ⟨o, ps, evs⟩
    rw [h] at hiff
    match o with
    | none => simpa using hiff
    | some (f, a) =>
      match hd : r.ch.codec.decode f with
      | .ok v => simpa [hd] using hiff
      | .error e => simpa [hd] using hiff

/-- C6: with a configured capacity `N ≠ 0`, an admission attempt on an
accepting receiver with an incoming connection waiting fails with
`CapacityExceeded` wrapped in `ReceiverAcceptingError` while `N` peers
remain live, leaving the receiver unchanged; once one live peer disconnects
(its terminal event consumed by a receive), the same admission attempt
succeeds and registers the new peer; and `limit()` reports the configured
capacity as an optional value. -/
theorem receiver_capacity_law {T : Type} (r : Receiver T) (a b : Addr)
    (rest : List (Except AcceptingError Addr))
    (hlisten : r.ch.listening = true)
    (hN : r.ch.limitN ≠ 0)
    (hfull : r.ch.peers.length = r.ch.limitN)
    (hpend : r.ch.pending = Except.ok a :: rest)
    (hev : r.ch.events = [MEvent.term b])
    (hb : b ∈ r.ch.peers) :
    (r.accept).1 = some (.error ⟨.capacityExceeded⟩) ∧
    (r.accept).2 = r ∧
    (((r.recv).2).accept).1 = some (.ok a) ∧
    (((r.recv).2).accept).2.ch.peers = r.ch.peers.erase b ++ [a] ∧
    r.limit = some r.ch.limitN := by
  have hcondFull : r.ch.limitN ≠ 0 ∧ r.ch.limitN ≤ r.ch.peers.length :=
    ⟨hN, hfull ▸ Nat.le_refl _⟩
  have hlenErase : (r.ch.peers.erase b).length = r.ch.limitN - 1 := by
    rw [List.length_erase_of_mem hb, hfull]
  have hcondAfter : ¬(r.ch.limitN ≠ 0 ∧ r.ch.limitN ≤ (r.ch.peers.erase b).length) := by
    rw [hlenErase]
    omega
  have hrecv : (r.recv).2
      = ⟨{ r.ch with peers := r.ch.peers.erase b, events := [] }⟩ := by
    simp only [Receiver.recv, MChannel.next, MChannel.recvWithAddr, hev,
      drainStep]
  refine ⟨?_, ?_, ?_, ?_, ?_⟩
  · simp only [Receiver.accept, MChannel.accept, hlisten, hpend, if_true]
    rw [if_pos hcondFull]
    rfl
  · simp only [Receiver.accept, MChannel.accept, hlisten, hpend, if_true]
    rw [if_pos hcondFull]
  · rw [hrecv]
    simp only [Receiver.accept, MChannel.accept, hpend, hlisten, if_true]
    rw [if_neg hcondAfter]
    rfl
  · rw [hrecv]
    simp only [Receiver.accept, MChannel.accept, hpend, hlisten, if_true]
    rw [if_neg hcondAfter]
  · simp [Receiver.limit, MChannel.limit, hN]

/-- A concrete codec on naturals for the concrete instances below: a value
encodes to the singleton frame holding it, and exactly those frames
decode. -/
def natCodec : Codec Nat where
  encode := fun v => .ok [v]
  decode := fun f =>
    match f with
    | [v] => .ok v
    | _ => .error 0

/-- A concrete single channel: fresh outbound connection, transport always
ready, splittable. -/
def sampleSChannel : SChannel Nat where
  codec := natCodec
  localAddr := 1
  peerAddr := 2
  readyFlag := false
  queued := none
  wire := []
  readyScript := []
  flushScript := []
  writeClosed := false
  splittable := true

/-- The same single channel with the next write-ready probe scripted to fail
with transport error 9. -/
def sampleSChannelErr : SChannel Nat :=
  { sampleSChannel with readyScript := [some 9] }

/-- A concrete multi-channel at capacity: limit 1, one live peer (address 5)
whose clean close is pending in the arrivals, and one admissible incoming
connection (address 7) waiting for admission. -/
def sampleMChannel : MChannel Nat where
  codec := natCodec
  localAddr := 1
  limitN := 1
  peers := [5]
  events := [MEvent.term 5]
  pending := [Except.ok 7]
  listening := true
  splittable := true

/-- A concrete unbounded multi-channel with two live peers and three pending
arrivals: a malformed frame from peer 3, a well-formed frame from peer 4,
then peer 3's close. -/
def sampleMChannel2 : MChannel Nat where
  codec := natCodec
  localAddr := 1
  limitN := 0
  peers := [3, 4]
  events := [MEvent.frame [8, 9] 3, MEvent.frame [6] 4, MEvent.term 3]
  pending := []
  listening := true
  splittable := true

/-- Concrete run of the three-phase send: on a ready transport, sending the
value 5 succeeds. -/
theorem sender_send_three_phase_witness :
    ((Sender.mk sampleSChannel).send 5).1 = .ok () :=
  (sender_send_three_phase (Sender.mk sampleSChannel) 5).2.mpr ⟨rfl, rfl, rfl⟩

/-- Concrete wrapped errors: a scripted transport failure surfaces through
the sender's ready probe as a `SenderError` with that failure as source, and
an admission attempt over capacity surfaces through `accept` as a
`ReceiverAcceptingError` wrapping `CapacityExceeded`. -/
theorem mpsc_facade_error_wrapping_witness :
    ((Sender.mk sampleSChannelErr).pollReady).1 = .error ⟨.transport 9⟩ ∧
    ((Receiver.mk sampleMChannel).accept).1
      = some (.error ⟨.capacityExceeded⟩) := by
  have h := mpsc_facade_error_wrapping (Sender.mk sampleSChannelErr) 0
    (Receiver.mk sampleMChannel)
  constructor
  · exact (h.2.2.2.2.2.2.2.2.2.1 ⟨.transport 9⟩).mpr rfl
  · exact (h.2.2.2.2.2.2.2.2.2.2.1 ⟨.capacityExceeded⟩).mpr rfl

/-- Concrete splits: a splittable sender splits into the rewrapped write half
and the spsc read half, and an already-split one fails with the substrate
error. -/
theorem mpsc_split_forwarding_witness :
    (Sender.mk sampleSChannel).split
      = .ok (Sender.fromSpsc ⟨{ sampleSChannel with splittable := false }⟩,
             ⟨{ sampleSChannel with splittable := false }⟩) ∧
    (Sender.mk { sampleSChannel with splittable := false }).split
      = .error .notHalvable := by
  constructor
  · exact (mpsc_split_forwarding (Sender.mk sampleSChannel)
      (Receiver.mk sampleMChannel)).1.trans rfl
  · exact (mpsc_split_forwarding
      (Sender.mk { sampleSChannel with splittable := false })
      (Receiver.mk sampleMChannel)).2.2.2.2.1.mpr rfl

/-- Concrete capacity scenario: at limit 1 with peer 5 live, admitting the
waiting connection 7 fails with the wrapped `CapacityExceeded`; after peer
5's close is consumed by a receive, the same admission succeeds; the
configured capacity is reported. -/
theorem receiver_capacity_law_witness :
    ((Receiver.mk sampleMChannel).accept).1
      = some (.error ⟨.capacityExceeded⟩) ∧
    ((((Receiver.mk sampleMChannel).recv).2).accept).1 = some (.ok 7) ∧
    (Receiver.mk sampleMChannel).limit = some 1 := by
  have h := receiver_capacity_law (Receiver.mk sampleMChannel) 7 5 []
    rfl (by decide) rfl rfl rfl (by decide)
  exact ⟨h.1, h.2.2.1, h.2.2.2.2⟩

/-- Concrete decode-error run: the malformed frame from peer 3 surfaces as a
per-item decode error, after which the next receive still yields the value 6
decoded from peer 4's frame. -/
theorem receiver_error_isolation_witness :
    ((Receiver.mk sampleMChannel2).recv).1 = some (.error ⟨.itemDecode 0⟩) ∧
    ((((Receiver.mk sampleMChannel2).recv).2).recv).1 = some (.ok 6) := by
  have h := (receiver_error_isolation (Receiver.mk sampleMChannel2)).2.1
    [8, 9] 3 [MEvent.frame [6] 4, MEvent.term 3] 0 rfl rfl
  refine ⟨h.1, ?_⟩
  rw [h.2]
  rfl

/-- Concrete split of an accepting receiver: the receive half keeps the
accept pathway active while the broadcast half is not the listener. -/
theorem receiver_split_listener_hardwired_witness :
    (Receiver.mk sampleMChannel).split
      = .ok (⟨{ sampleMChannel with listening := true, splittable := false }⟩,
             ⟨{ sampleMChannel with listening := false, splittable := false }⟩) ∧
    ({ sampleMChannel with listening := true, splittable := false } : MChannel Nat).listening
      = true ∧
    ({ sampleMChannel with listening := false, splittable := false } : MChannel Nat).listening
      = false := by
  have hsplit : (Receiver.mk sampleMChannel).split
      = .ok (⟨{ sampleMChannel with listening := true, splittable := false }⟩,
             ⟨{ sampleMChannel with listening := false, splittable := false }⟩) := rfl
  have h := (receiver_split_listener_hardwired (Receiver.mk sampleMChannel)).2
    ⟨{ sampleMChannel with listening := true, splittable := false }⟩
    ⟨{ sampleMChannel with listening := false, splittable := false }⟩ hsplit
  exact ⟨hsplit, h.1, h.2.1⟩
